import Mathlib

/-!
Verification of the hydration state machine in `src/App.js` (4Bottels).

The core logic of the app is a pure state machine over a single record
(`HydrationState`): a day-rollover function (`hydrateStateForToday`,
src/App.js:36-51), an intake-application transition (`handleAddWater`,
src/App.js:107-120, modelled here as `applyIntake` with the raw text input
passed explicitly), integer parsing (`parseIntSafe`, src/App.js:24-27,
which wraps JavaScript `Number.parseInt(value, 10)`), clamping
(`clamp`, src/App.js:22), the initializer (`buildInitialState`,
src/App.js:29-34) and the startup load sequence (`loadState`,
src/App.js:82-96).

The source reads the current date inside `hydrateStateForToday` via
`getDateKey()`; here the date is an explicit `String` parameter, since the
function is otherwise pure in the state and the date string.
-/

set_option autoImplicit false

namespace Bottels

/-- `DAILY_GOAL_ML` from src/App.js:12. -/
def DAILY_GOAL_ML : Int := 2000

/-- `clamp` from src/App.js:22: `Math.min(Math.max(value, min), max)`. -/
def clamp (value lo hi : Int) : Int := min (max value lo) hi

/-- Decimal-digit test used by the `parseInt` model. -/
def isDecDigit (c : Char) : Bool := ('0' ≤ c) && (c ≤ '9')

/-- Whitespace skipped by JavaScript `parseInt` before the number
(common ASCII whitespace). -/
def isJsSpace (c : Char) : Bool := c = ' ' || c = '\t' || c = '\n' || c = '\r'

/-- Numeric value of a list of decimal digits, most significant first. -/
def digitsToNat (ds : List Char) : Nat :=
  ds.foldl (fun acc c => 10 * acc + (c.toNat - 48)) 0

/-- JavaScript `Number.parseInt(value, 10)` on a string: skip leading
whitespace, read an optional sign, then the longest prefix of decimal
digits; `none` models the `NaN` result when no digit follows.
Trailing non-digit characters are ignored. -/
def parseIntJS (s : String) : Option Int :=
  let cs := s.toList.dropWhile isJsSpace
  match cs with
  | '-' :: rest =>
    let ds := rest.takeWhile isDecDigit
    if ds.isEmpty then none else some (-(digitsToNat ds : Int))
  | '+' :: rest =>
    let ds := rest.takeWhile isDecDigit
    if ds.isEmpty then none else some (digitsToNat ds : Int)
  | _ =>
    let ds := cs.takeWhile isDecDigit
    if ds.isEmpty then none else some (digitsToNat ds : Int)

/-- `parseIntSafe` from src/App.js:24-27: `Number.parseInt(value, 10)`,
with `NaN` mapped to `0`. -/
def parseIntSafe (value : String) : Int := (parseIntJS value).getD 0

/-- The sole entity of the data model: `remainingMl`, `streak`,
`lastDate`, `completedToday` (src/App.js:29-34 and the four `useState`
hooks at src/App.js:54-57). -/
structure HydrationState where
  remainingMl : Int
  streak : Int
  lastDate : String
  completedToday : Bool
deriving DecidableEq, Repr

/-- `buildInitialState` from src/App.js:29-34, with the date of creation
passed explicitly. -/
def buildInitialState (today : String) : HydrationState :=
  { remainingMl := DAILY_GOAL_ML
    streak := 0
    lastDate := today
    completedToday := false }

/-- `hydrateStateForToday` from src/App.js:36-51 (the rollover function),
with `today` passed explicitly. -/
def hydrateStateForToday (state : HydrationState) (today : String) :
    HydrationState :=
  if state.lastDate = today then
    state
  else
    { remainingMl := DAILY_GOAL_ML
      streak := if state.completedToday then state.streak + 1 else 0
      lastDate := today
      completedToday := false }

/-- The state transition of `handleAddWater` from src/App.js:107-120:
parse the raw input, ignore non-positive amounts, otherwise clamp the new
remaining amount into `[0, DAILY_GOAL_ML]` and set the completion flag to
`didComplete || completedToday`. -/
def applyIntake (state : HydrationState) (rawInput : String) :
    HydrationState :=
  let amount := parseIntSafe rawInput
  if amount ≤ 0 then
    state
  else
    let nextRemaining := clamp (state.remainingMl - amount) 0 DAILY_GOAL_ML
    let didComplete := nextRemaining == 0
    { state with
        remainingMl := nextRemaining
        completedToday := didComplete || state.completedToday }

/-- A JavaScript value as produced by `JSON.parse` (src/App.js:86),
restricted to the shapes relevant to the stored payload: `undefined`
(which `JSON.parse` never returns but property access can produce),
`null`, booleans, numbers (integral, as stored by this app), `NaN`
(producible by arithmetic on non-numbers), strings, and objects as
ordered field lists. Arrays are not modelled; no claim depends on them. -/
inductive JSVal where
  | undef : JSVal
  | jnull : JSVal
  | jbool : Bool → JSVal
  | jnum : Int → JSVal
  | jnan : JSVal
  | jstr : String → JSVal
  | jobj : List (String × JSVal) → JSVal

/-- First-match field lookup in an object, `undefined` when absent. -/
def lookupField : List (String × JSVal) → String → JSVal
  | [], _ => JSVal.undef
  | (k, v) :: rest, key => if k = key then v else lookupField rest key

/-- JavaScript property access `v.key` for a value on which access does
not throw: field lookup on objects, `undefined` on other primitives. -/
def JSVal.prop : JSVal → String → JSVal
  | JSVal.jobj fields, key => lookupField fields key
  | _, _ => JSVal.undef

/-- Property access on `null` or `undefined` throws a `TypeError`. -/
def throwsOnAccess : JSVal → Bool
  | JSVal.undef => true
  | JSVal.jnull => true
  | _ => false

/-- JavaScript truthiness of a value. -/
def truthy : JSVal → Bool
  | JSVal.undef => false
  | JSVal.jnull => false
  | JSVal.jbool b => b
  | JSVal.jnum n => n ≠ 0
  | JSVal.jnan => false
  | JSVal.jstr s => s ≠ ""
  | JSVal.jobj _ => true

/-- JavaScript `v + 1` for the values above: numeric addition after
`ToNumber` coercion, string concatenation for strings and objects. -/
def jsAdd1 : JSVal → JSVal
  | JSVal.jnum n => JSVal.jnum (n + 1)
  | JSVal.jbool b => JSVal.jnum (if b then 2 else 1)
  | JSVal.jnull => JSVal.jnum 1
  | JSVal.undef => JSVal.jnan
  | JSVal.jnan => JSVal.jnan
  | JSVal.jstr s => JSVal.jstr (s ++ "1")
  | JSVal.jobj _ => JSVal.jstr "[object Object]1"

/-- JavaScript strict equality `v === t` where `t` is known to be a
string (in the source, `state.lastDate === today` with `today` produced
by `getDateKey`). -/
def strictEqStr : JSVal → String → Bool
  | JSVal.jstr s, t => s == t
  | _, _ => false

/-- The `HydrationState` record as the JavaScript object the source
builds, fields in source order. -/
def jsOfState (s : HydrationState) : JSVal :=
  JSVal.jobj
    [("remainingMl", JSVal.jnum s.remainingMl),
     ("streak", JSVal.jnum s.streak),
     ("lastDate", JSVal.jstr s.lastDate),
     ("completedToday", JSVal.jbool s.completedToday)]

/-- `hydrateStateForToday` (src/App.js:36-51) as it executes on an
arbitrary parsed JSON value, as in the startup path: `state.lastDate`
throws on `null`/`undefined` (`none`); otherwise the same-day test uses
strict equality, and the fresh state computes
`state.completedToday ? state.streak + 1 : 0` with JavaScript coercions. -/
def hydrateStateForTodayJS (state : JSVal) (today : String) : Option JSVal :=
  if throwsOnAccess state then
    none
  else if strictEqStr (state.prop "lastDate") today then
    some state
  else
    let streak :=
      if truthy (state.prop "completedToday") then jsAdd1 (state.prop "streak")
      else JSVal.jnum 0
    some (JSVal.jobj
      [("remainingMl", JSVal.jnum DAILY_GOAL_ML),
       ("streak", streak),
       ("lastDate", JSVal.jstr today),
       ("completedToday", JSVal.jbool false)])

/-- Outcome of the `AsyncStorage.getItem` read plus `JSON.parse` in
`loadState` (src/App.js:85-86): the read threw, the key was absent (or
held a falsy string), or a string was present and `JSON.parse` either
threw (`none`) or produced a value. -/
inductive ReadOutcome where
  | readError : ReadOutcome
  | absent : ReadOutcome
  | content : Option JSVal → ReadOutcome

/-- `loadState` from src/App.js:82-96: on a read error or parse error the
`catch` falls back to `buildInitialState()` without rollover; when the key
is absent the initializer feeds the rollover; when a value was parsed it
feeds the rollover directly (no shape validation), and a `TypeError`
thrown inside the rollover also lands in the `catch`. -/
def loadState (r : ReadOutcome) (today : String) : JSVal :=
  match r with
  | ReadOutcome.readError => jsOfState (buildInitialState today)
  | ReadOutcome.absent =>
    match hydrateStateForTodayJS (jsOfState (buildInitialState today)) today with
    | some v => v
    | none => jsOfState (buildInitialState today)
  | ReadOutcome.content none => jsOfState (buildInitialState today)
  | ReadOutcome.content (some v) =>
    match hydrateStateForTodayJS v today with
    | some h => h
    | none => jsOfState (buildInitialState today)

/-- One transition of the state machine: a rollover check with some date,
or an intake action with some raw input. -/
inductive Step : HydrationState → HydrationState → Prop where
  | rollover (s : HydrationState) (d : String) :
      Step s (hydrateStateForToday s d)
  | intake (s : HydrationState) (raw : String) :
      Step s (applyIntake s raw)

/-- States reachable from `init` by a finite sequence of transitions. -/
inductive Reachable (init : HydrationState) : HydrationState → Prop where
  | refl : Reachable init init
  | step {s t : HydrationState} :
      Reachable init s → Step s t → Reachable init t

/-- The clamp used by the intake transition always lands in
`[0, DAILY_GOAL_ML]`. -/
theorem clamp_bounds (v : Int) :
    0 ≤ clamp v 0 DAILY_GOAL_ML ∧ clamp v 0 DAILY_GOAL_ML ≤ DAILY_GOAL_ML := by
  constructor
  · exact le_min (le_max_right v 0) (by norm_num [DAILY_GOAL_ML])
  · exact min_le_right (max v 0) DAILY_GOAL_ML

/-- Clamping a non-positive value into `[0, DAILY_GOAL_ML]` gives `0`. -/
theorem clamp_nonpos (v : Int) (h : v ≤ 0) : clamp v 0 DAILY_GOAL_ML = 0 := by
  unfold clamp
  rw [max_eq_right h]
  exact min_eq_left (by norm_num [DAILY_GOAL_ML])

/-- On a well-formed serialized state, the rollover as executed on the
parsed JSON value never throws and agrees with the pure rollover
function. -/
theorem hydrateStateForTodayJS_ofState (s : HydrationState) (today : String) :
    hydrateStateForTodayJS (jsOfState s) today =
      some (jsOfState (hydrateStateForToday s today)) := by
  by_cases h : s.lastDate = today
  · simp [hydrateStateForTodayJS, jsOfState, hydrateStateForToday,
      JSVal.prop, lookupField, strictEqStr, throwsOnAccess, h]
  · cases hc : s.completedToday <;>
      simp [hydrateStateForTodayJS, jsOfState, hydrateStateForToday,
        JSVal.prop, lookupField, strictEqStr, throwsOnAccess, truthy,
        jsAdd1, h, hc]

/-- Unfolding of the intake transition when the parsed amount is
positive. -/
theorem applyIntake_pos_eq (s : HydrationState) (raw : String)
    (h : 0 < parseIntSafe raw) :
    applyIntake s raw =
      { s with
          remainingMl := clamp (s.remainingMl - parseIntSafe raw) 0 DAILY_GOAL_ML
          completedToday :=
            (clamp (s.remainingMl - parseIntSafe raw) 0 DAILY_GOAL_ML == 0) ||
              s.completedToday } := by
  have hna : ¬ parseIntSafe raw ≤ 0 := not_le.mpr h
  simp [applyIntake, hna]

/-- C1. New-day rollover rule: whenever `today` differs from the state's
recorded `lastDate`, `hydrateStateForToday` returns exactly the fresh
state with a full goal, the streak incremented when the previous day was
completed and reset to `0` otherwise, `lastDate := today`, and the
completion flag cleared; the streak moves by at most one per rollover
because the result is a pure function of the single previous state. -/
theorem rollover_new_day (s : HydrationState) (today : String)
    (h : today ≠ s.lastDate) :
    hydrateStateForToday s today =
      { remainingMl := DAILY_GOAL_ML
        streak := if s.completedToday then s.streak + 1 else 0
        lastDate := today
        completedToday := false } := by
  have hne : s.lastDate ≠ today := fun hl => h hl.symm
  simp [hydrateStateForToday, hne]

/-- Witness for C1 at a concrete state and date. -/
theorem rollover_new_day_witness :
    hydrateStateForToday ⟨0, 3, "2024-01-01", true⟩ "2024-01-02" =
      { remainingMl := DAILY_GOAL_ML
        streak := if (⟨0, 3, "2024-01-01", true⟩ : HydrationState).completedToday
          then (⟨0, 3, "2024-01-01", true⟩ : HydrationState).streak + 1 else 0
        lastDate := "2024-01-02"
        completedToday := false } :=
  rollover_new_day ⟨0, 3, "2024-01-01", true⟩ "2024-01-02" (by decide)

/-- C5. Same-day no-op: rolling over with the state's own `lastDate`
returns the state itself, all four fields unchanged. -/
theorem rollover_same_day (s : HydrationState) :
    hydrateStateForToday s s.lastDate = s := by
  simp [hydrateStateForToday]

/-- C6. Rollover idempotence: rolling over twice with the same date
equals rolling over once. -/
theorem rollover_idem (s : HydrationState) (d : String) :
    hydrateStateForToday (hydrateStateForToday s d) d =
      hydrateStateForToday s d := by
  by_cases h : s.lastDate = d <;> simp [hydrateStateForToday, h]

/-- C9. Intake frame condition: `applyIntake` never changes `streak` or
`lastDate`, for every state and every raw input. -/
theorem applyIntake_frame (s : HydrationState) (raw : String) :
    (applyIntake s raw).streak = s.streak ∧
      (applyIntake s raw).lastDate = s.lastDate := by
  by_cases h : parseIntSafe raw ≤ 0 <;> simp [applyIntake, h]

/-- C10. JavaScript `parseInt` accepts a valid leading decimal integer
with trailing non-numeric characters: "250ml" and "12abc" parse to 250
and 12 rather than failing, and such an input is applied as a normal
positive intake of the leading amount. -/
theorem parse_leading_integer :
    parseIntSafe "250ml" = 250 ∧ parseIntSafe "12abc" = 12 ∧
      ∀ s : HydrationState, applyIntake s "250ml" = applyIntake s "250" := by
  refine ⟨by decide, by decide, fun s => ?_⟩
  have h : parseIntSafe "250ml" = parseIntSafe "250" := by decide
  unfold applyIntake
  rw [h]

/-- C2. Bounds invariant: from the initial state, every state reachable
by rollover and intake transitions has `0 ≤ remainingMl ≤ DAILY_GOAL_ML`. -/
theorem remaining_bounds (today : String) (s : HydrationState)
    (h : Reachable (buildInitialState today) s) :
    0 ≤ s.remainingMl ∧ s.remainingMl ≤ DAILY_GOAL_ML := by
  induction h with
  | refl => norm_num [buildInitialState, DAILY_GOAL_ML]
  | step hr hstep ih =>
    rename_i u t
    cases hstep with
    | rollover d =>
      by_cases hd : u.lastDate = d
      · simpa [hydrateStateForToday, hd] using ih
      · simp only [hydrateStateForToday, if_neg hd]
        norm_num [DAILY_GOAL_ML]
    | intake raw =>
      by_cases ha : parseIntSafe raw ≤ 0
      · simpa [applyIntake, ha] using ih
      · rw [applyIntake_pos_eq u raw (not_le.mp ha)]
        exact clamp_bounds (u.remainingMl - parseIntSafe raw)

/-- Witness for C2: the initial state itself is reachable and in
bounds. -/
theorem remaining_bounds_witness :
    0 ≤ (buildInitialState "2024-01-01").remainingMl ∧
      (buildInitialState "2024-01-01").remainingMl ≤ DAILY_GOAL_ML :=
  remaining_bounds "2024-01-01" (buildInitialState "2024-01-01")
    Reachable.refl

/-- C3. Positive-intake postcondition: when the raw input parses to a
positive amount, the new remaining amount is the old one minus the amount
clamped into `[0, DAILY_GOAL_ML]`, and the completion flag becomes
`completedToday OR (remaining = 0)`; in particular from
`remainingMl = 100`, intake "500" leaves `remainingMl = 0` and
`completedToday = true`. -/
theorem applyIntake_positive :
    (∀ (s : HydrationState) (raw : String), 0 < parseIntSafe raw →
        applyIntake s raw =
          { s with
              remainingMl :=
                clamp (s.remainingMl - parseIntSafe raw) 0 DAILY_GOAL_ML
              completedToday := s.completedToday ||
                (clamp (s.remainingMl - parseIntSafe raw) 0 DAILY_GOAL_ML
                  == 0) }) ∧
    (∀ s : HydrationState, s.remainingMl = 100 →
        (applyIntake s "500").remainingMl = 0 ∧
          (applyIntake s "500").completedToday = true) := by
  constructor
  · intro s raw hpos
    rw [applyIntake_pos_eq s raw hpos, Bool.or_comm]
  · intro s h100
    have h5 : 0 < parseIntSafe "500" := by decide
    have hc : clamp ((100 : Int) - parseIntSafe "500") 0 DAILY_GOAL_ML = 0 :=
      clamp_nonpos _ (by decide)
    rw [applyIntake_pos_eq s "500" h5, h100]
    simp [hc]

/-- Witness for C3 at the concrete state `⟨100, 0, "2024-01-01", false⟩`. -/
theorem applyIntake_positive_witness :
    (applyIntake ⟨100, 0, "2024-01-01", false⟩ "500" =
        { remainingMl := clamp (100 - parseIntSafe "500") 0 DAILY_GOAL_ML
          streak := 0
          lastDate := "2024-01-01"
          completedToday := false ||
            (clamp (100 - parseIntSafe "500") 0 DAILY_GOAL_ML == 0) }) ∧
      ((applyIntake ⟨100, 0, "2024-01-01", false⟩ "500").remainingMl = 0 ∧
        (applyIntake ⟨100, 0, "2024-01-01", false⟩ "500").completedToday
          = true) :=
  ⟨applyIntake_positive.1 ⟨100, 0, "2024-01-01", false⟩ "500" (by decide),
    applyIntake_positive.2 ⟨100, 0, "2024-01-01", false⟩ rfl⟩

/-- C4. Non-positive or unparsable intake is a true no-op: whenever the
raw input fails integer parsing or parses to a non-positive value,
`applyIntake` returns the state itself, all four fields unchanged; in
particular for "-5" and "abc". -/
theorem applyIntake_noop :
    (∀ (s : HydrationState) (raw : String),
        (parseIntJS raw = none ∨ ∃ n, parseIntJS raw = some n ∧ n ≤ 0) →
        applyIntake s raw = s) ∧
    (∀ s : HydrationState,
        applyIntake s "-5" = s ∧ applyIntake s "abc" = s) := by
  have key : ∀ (s : HydrationState) (raw : String),
      (parseIntJS raw = none ∨ ∃ n, parseIntJS raw = some n ∧ n ≤ 0) →
      applyIntake s raw = s := by
    intro s raw h
    have hle : parseIntSafe raw ≤ 0 := by
      unfold parseIntSafe
      rcases h with h | ⟨n, hn, hnle⟩
      · simp [h]
      · simp [hn, hnle]
    simp [applyIntake, hle]
  exact ⟨key, fun s =>
    ⟨key s "-5" (Or.inr ⟨-5, by decide, by decide⟩),
      key s "abc" (Or.inl (by decide))⟩⟩

/-- Witness for C4 at a concrete state, for both an unparsable input and
a negative one. -/
theorem applyIntake_noop_witness :
    ((parseIntJS "abc" = none ∨ ∃ n, parseIntJS "abc" = some n ∧ n ≤ 0) ∧
        applyIntake ⟨700, 2, "2024-01-05", false⟩ "abc" =
          ⟨700, 2, "2024-01-05", false⟩) ∧
      (applyIntake ⟨700, 2, "2024-01-05", false⟩ "-5" =
          ⟨700, 2, "2024-01-05", false⟩ ∧
        applyIntake ⟨700, 2, "2024-01-05", false⟩ "abc" =
          ⟨700, 2, "2024-01-05", false⟩) :=
  ⟨⟨Or.inl (by decide),
      applyIntake_noop.1 ⟨700, 2, "2024-01-05", false⟩ "abc"
        (Or.inl (by decide))⟩,
    applyIntake_noop.2 ⟨700, 2, "2024-01-05", false⟩⟩

/-- C7. Completion flag invariant: in every reachable state,
`completedToday` holds exactly when `remainingMl = 0` (the remaining
amount never increases between rollovers, so reaching `0` once means
staying at `0`); and intake never resets the flag — once `completedToday`
is true, any `applyIntake` keeps it true, so only a rollover can clear
it. -/
theorem completedToday_invariant :
    (∀ (today : String) (s : HydrationState),
        Reachable (buildInitialState today) s →
        (s.completedToday = true ↔ s.remainingMl = 0)) ∧
    (∀ (s : HydrationState) (raw : String), s.completedToday = true →
        (applyIntake s raw).completedToday = true) := by
  have sticky : ∀ (s : HydrationState) (raw : String),
      s.completedToday = true → (applyIntake s raw).completedToday = true := by
    intro s raw h
    by_cases ha : parseIntSafe raw ≤ 0 <;> simp [applyIntake, ha, h]
  refine ⟨?_, sticky⟩
  intro today s h
  induction h with
  | refl => norm_num [buildInitialState, DAILY_GOAL_ML]
  | step hr hstep ih =>
    rename_i u t
    cases hstep with
    | rollover d =>
      by_cases hd : u.lastDate = d
      · simpa [hydrateStateForToday, hd] using ih
      · simp only [hydrateStateForToday, if_neg hd]
        norm_num [DAILY_GOAL_ML]
    | intake raw =>
      by_cases ha : parseIntSafe raw ≤ 0
      · simpa [applyIntake, ha] using ih
      · have hpos : 0 < parseIntSafe raw := not_le.mp ha
        rw [applyIntake_pos_eq u raw hpos]
        simp only [Bool.or_eq_true, beq_iff_eq]
        constructor
        · rintro (hc | hcomp)
          · exact hc
          · have h0 := ih.mp hcomp
            rw [h0]
            exact clamp_nonpos _ (by omega)
        · intro hc
          exact Or.inl hc

/-- Witness for C7: the invariant at the initial state, and flag
stickiness at a concrete completed state. -/
theorem completedToday_invariant_witness :
    ((buildInitialState "2024-01-01").completedToday = true ↔
        (buildInitialState "2024-01-01").remainingMl = 0) ∧
      (applyIntake ⟨0, 1, "2024-01-01", true⟩ "9").completedToday = true :=
  ⟨completedToday_invariant.1 "2024-01-01" (buildInitialState "2024-01-01")
      Reachable.refl,
    completedToday_invariant.2 ⟨0, 1, "2024-01-01", true⟩ "9" rfl⟩

/-- C8 (amended). Startup fallback: when the stored value is absent, or
the read throws, or the payload fails `JSON.parse`, the active state is
the rollover of the freshly initialized state (for the missing-key case
the initializer feeds the rollover explicitly; in the two `catch` cases
the initializer is used directly, which coincides with its own rollover
because its `lastDate` is already today). Payloads that parse
successfully are fed to the rollover without shape validation. -/
theorem loadState_fallback (today : String) (r : ReadOutcome)
    (h : r = ReadOutcome.readError ∨ r = ReadOutcome.absent ∨
      r = ReadOutcome.content none) :
    loadState r today =
      jsOfState (hydrateStateForToday (buildInitialState today) today) := by
  have hinit : hydrateStateForToday (buildInitialState today) today =
      buildInitialState today := by
    simp [hydrateStateForToday, buildInitialState]
  rcases h with h | h | h <;> subst h
  · simp [loadState, hinit]
  · simp [loadState, hydrateStateForTodayJS_ofState]
  · simp [loadState, hinit]

/-- Witness for the amended C8: a read error on a concrete date yields
the rolled-over fresh state. -/
theorem loadState_fallback_witness :
    loadState ReadOutcome.readError "2024-01-02" =
      jsOfState (hydrateStateForToday (buildInitialState "2024-01-02")
        "2024-01-02") :=
  loadState_fallback "2024-01-02" ReadOutcome.readError (Or.inl rfl)

/-- Counterexample to C8 as stated: the payload
`\x7b"completedToday": true, "streak": 7\x7d` parses as JSON but does not
have the `HydrationState` shape, yet `loadState` does not fall back to
the rolled-over fresh state — the malformed payload flows into the
rollover and produces a state with streak 8. -/
theorem loadState_shape_cex :
    loadState (ReadOutcome.content (some (JSVal.jobj
        [("completedToday", JSVal.jbool true), ("streak", JSVal.jnum 7)])))
        "2024-01-02" ≠
      jsOfState (hydrateStateForToday (buildInitialState "2024-01-02")
        "2024-01-02") := by
  have h1 : loadState (ReadOutcome.content (some (JSVal.jobj
      [("completedToday", JSVal.jbool true), ("streak", JSVal.jnum 7)])))
      "2024-01-02" =
      JSVal.jobj
        [("remainingMl", JSVal.jnum 2000),
         ("streak", JSVal.jnum 8),
         ("lastDate", JSVal.jstr "2024-01-02"),
         ("completedToday", JSVal.jbool false)] := rfl
  have h2 : jsOfState (hydrateStateForToday (buildInitialState "2024-01-02")
      "2024-01-02") =
      JSVal.jobj
        [("remainingMl", JSVal.jnum 2000),
         ("streak", JSVal.jnum 0),
         ("lastDate", JSVal.jstr "2024-01-02"),
         ("completedToday", JSVal.jbool false)] := rfl
  rw [h1, h2]
  intro h
  simp only [JSVal.jobj.injEq, List.cons.injEq, Prod.mk.injEq,
    JSVal.jnum.injEq] at h
  omega

end Bottels
